import Mathlib

/-!
Verification of the rings-s/typescript teaching snippets.

The TypeScript snippets are shallowly embedded: JavaScript runtime values are
modelled by the inductive `JsValue` (numbers as rationals), exceptions by
`Except`, mutable fields by explicit state passing, and the retry loop of
`withRetry` by structural recursion on the remaining attempt budget.
Each embedded definition is named after the source symbol it translates.
-/

namespace Ts

/-- Model of a JavaScript runtime value: strings, numbers (as rationals),
booleans, null, undefined, and plain objects as association lists. -/
inductive JsValue where
  | str (s : String)
  | num (q : ℚ)
  | boolVal (b : Bool)
  | null
  | undef
  | obj (fields : List (String × JsValue))

/-- Model of the JavaScript `typeof` operator on `JsValue`
(note `typeof null` is `"object"`). -/
def typeofJs : JsValue → String
  | .str _ => "string"
  | .num _ => "number"
  | .boolVal _ => "boolean"
  | .null => "object"
  | .undef => "undefined"
  | .obj _ => "object"

/-- Model of JavaScript truthiness: empty string, 0, false, null and
undefined are falsy; objects are truthy. -/
def truthy : JsValue → Bool
  | .str s => !s.isEmpty
  | .num q => decide (q ≠ 0)
  | .boolVal b => b
  | .null => false
  | .undef => false
  | .obj _ => true

/-- Property access `o[name]` on a plain object: first binding wins,
a missing property reads as `undefined`. -/
def getField : List (String × JsValue) → String → JsValue
  | [], _ => .undef
  | (k, v) :: rest, name => if k = name then v else getField rest name

/-- Projection used once a value is known to be a string. -/
def strOf : JsValue → String
  | .str s => s
  | _ => ""

/-- Projection used once a value is known to be a number. -/
def numOf : JsValue → ℚ
  | .num q => q
  | _ => 0

/-- Model of `String.prototype.includes` with a single-character needle:
whether the character occurs in the string. -/
def includesChar (s : String) (c : Char) : Bool := s.data.contains c

/-- Test for the JavaScript value `undefined`. -/
def isUndef : JsValue → Bool
  | .undef => true
  | _ => false

/-- Test for the JavaScript value `null`. -/
def isNull : JsValue → Bool
  | .null => true
  | _ => false

/-! Embedding of src/errorsHandling.ts, lines 93-109: the discriminated
union `Result` and `divide`. The thrown `Error` object is represented by
its message string. -/

/-- The source type `Result with T and E` is a discriminated union on the
`success` tag; `success` carries `value`, `failure` carries `error`. -/
inductive Result (T : Type) (E : Type) where
  | success (value : T)
  | failure (error : E)
deriving DecidableEq, Repr

/-- Source `divide`: returns the failure branch with a Division by zero
error when `b === 0`, and the success branch with `a / b` otherwise. -/
def divide (a b : ℚ) : Result ℚ String :=
  if b = 0 then .failure "Division by zero"
  else .success (a / b)

/-! Embedding of src/errorsHandling.ts, lines 377-404: the `Either` union
and `divideEither`. -/

/-- The source type `Either with L and R`, tagged `left`/`right`. -/
inductive Either (L : Type) (R : Type) where
  | left (error : L)
  | right (value : R)
deriving DecidableEq, Repr

/-- Source `divideEither`: `left("Division by zero")` when `b === 0`,
`right(a / b)` otherwise. -/
def divideEither (a b : ℚ) : Either String ℚ :=
  if b = 0 then .left "Division by zero"
  else .right (a / b)

/-! Embedding of src/classes&interface.ts, lines 34-69: `BankAccount`.
The private `balance` field is passed explicitly; a thrown `Error` is the
`Except.error` branch carrying its message. -/

namespace BankAccount

/-- Source `BankAccount.deposit`: throws "Deposit amount must be positive"
when `amount <= 0`, otherwise adds `amount` to the private balance. -/
def deposit (balance amount : ℚ) : Except String ℚ :=
  if amount ≤ 0 then .error "Deposit amount must be positive"
  else .ok (balance + amount)

end BankAccount

/-! Embedding of src/classes&interface.ts, lines 435-460: the `Temperature`
accessors. The private `_celsius` field is passed explicitly (it is
initialised to 0 at construction). -/

namespace Temperature

/-- Source getter `celsius`: returns the private `_celsius` field. -/
def celsiusGet (c : ℚ) : ℚ := c

/-- Source setter `celsius`: throws when the value is below absolute zero,
otherwise stores it in `_celsius`. -/
def celsiusSet (_c v : ℚ) : Except String ℚ :=
  if v < -273.15 then .error "Temperature below absolute zero is not possible"
  else .ok v

/-- Source derived getter `fahrenheit`: `(this._celsius * 9) / 5 + 32`. -/
def fahrenheitGet (c : ℚ) : ℚ := c * 9 / 5 + 32

/-- Source derived setter `fahrenheit`: assigns
`((value - 32) * 5) / 9` through the `celsius` setter. -/
def fahrenheitSet (c v : ℚ) : Except String ℚ :=
  celsiusSet c ((v - 32) * 5 / 9)

end Temperature

/-! Embedding of src/generics.ts, lines 133-153: the `Container` class whose
static `count` field is shared mutable state, incremented by every
construction. The static state is passed explicitly. -/

namespace Container

/-- Source `Container` constructor effect on the static `count` field:
`Container.count++`. -/
def construct (count : Nat) : Nat := count + 1

/-- Source `Container.getCount`: returns the static `count` field. -/
def getCount (count : Nat) : Nat := count

/-- The static `count` after `n` constructions starting from the initial
static state 0. -/
def constructN : Nat → Nat
  | 0 => 0
  | n + 1 => construct (constructN n)

end Container

/-! Embedding of src/generics.ts, lines 399-411: `createState`, whose
closure variable `state` is mutable state shared by `get` and `set`. -/

/-- Source `createState(...)`: the closure returned by `get` reads the
current closure state. -/
def createStateGet {T : Type} (state : T) : T := state

/-- Source `createState(...)`: `set` overwrites the closure state with its
argument. -/
def createStateSet {T : Type} (_state : T) (newState : T) : T := newState

/-! Embedding of src/generics.ts, lines 87-101: the `Box` class with a
mutable private `value` field, passed explicitly. -/

namespace Box

/-- Source `Box.getValue`: returns the private `value` field. -/
def getValue {T : Type} (value : T) : T := value

/-- Source `Box.setValue`: overwrites the private `value` field. -/
def setValue {T : Type} (_value : T) (newValue : T) : T := newValue

end Box

/-! Embedding of src/customTypes.ts, lines 206-233 and the identical
src/unnamed/part_000 lines 126-138: a pet of the `Fish | Bird` union is a
record of optionally-present methods, and `isFish` checks at runtime whether
the `swim` member is defined. -/

/-- A runtime pet value: each field records whether the corresponding
method is present (`some`) or reads as `undefined` (`none`). -/
structure PetObj where
  swim : Option Unit
  fly : Option Unit
  layEggs : Option Unit

/-- Source `isFish`: the check `(pet as Fish).swim !== undefined`. -/
def isFish (pet : PetObj) : Bool := pet.swim.isSome

/-- The static `Fish` shape: `swim` and `layEggs` methods defined. -/
def isFishShape (pet : PetObj) : Prop := pet.swim.isSome ∧ pet.layEggs.isSome

/-- The static `Bird` shape: `fly` and `layEggs` defined and no `swim`
member. -/
def isBirdShape (pet : PetObj) : Prop :=
  pet.fly.isSome ∧ pet.layEggs.isSome ∧ pet.swim = none

/-! Embedding of src/errorsHandling.ts, lines 444-457: the assertion
function `assertIsString` and `processInput`. -/

/-- Source `assertIsString`: throws unless `typeof value === "string"`. -/
def assertIsString (value : JsValue) (message : String) : Except String Unit :=
  if typeofJs value ≠ "string" then
    .error (message ++ " (expected string, got " ++ typeofJs value ++ ")")
  else .ok ()

/-- Source `processInput`: asserts the input is a string, then returns
`input.toUpperCase()`. -/
def processInput (input : JsValue) : Except String String :=
  match assertIsString input "Input must be a string" with
  | .error e => .error e
  | .ok _ => .ok (strOf input).toUpper

/-! Embedding of src/errorsHandling.ts, lines 65-86 and 112-124: the
snippets that invoke other snippets. -/

/-- Source `validateUser`: throws a `ValidationError` (represented by its
message) unless the argument is a non-null object. -/
def validateUser (user : JsValue) : Except String Unit :=
  if typeofJs user ≠ "object" ∨ isNull user then
    .error "User must be an object"
  else .ok ()

/-- Observable outcome of `saveUser`: either the save path is reached or a
caught `ValidationError` is logged. -/
inductive SaveOutcome where
  | saved
  | validationFailed (message : String)
deriving DecidableEq, Repr

/-- Source `saveUser`: calls `validateUser` inside try/catch and logs a
caught `ValidationError`. -/
def saveUser (user : JsValue) : SaveOutcome :=
  match validateUser user with
  | .error message => .validationFailed message
  | .ok _ => .saved

/-- Source `performDivision`: calls `divide` and narrows the resulting
discriminated union, returning the value on success and null on failure. -/
def performDivision (a b : ℚ) : Option ℚ :=
  match divide a b with
  | .success v => some v
  | .failure _ => none

/-! Embedding of src/errorsHandling.ts, lines 833-879: `withRetry` and
`fetchUserWithRetry`. The awaited callback `fn` is modelled as a function
from the attempt number to that attempt's outcome; a thrown value is either
an `ApiError` instance (carrying its `status`) or anything else. The
performed waits are recorded so the backoff schedule is observable. -/

/-- Source `RetryOptions`. -/
structure RetryOptions where
  maxRetries : Nat
  delay : ℚ
  backoffFactor : ℚ

/-- A value thrown by an attempt: an `ApiError` with its `status`, or any
other thrown value. -/
inductive Thrown where
  | apiErr (status : ℚ)
  | otherErr
deriving DecidableEq, Repr

/-- The retry condition of `withRetry`:
`error instanceof ApiError && error.status >= 500`. -/
def isRetryable : Thrown → Bool
  | .apiErr status => decide (500 ≤ status)
  | .otherErr => false

/-- Observable behaviour of one `withRetry` run: how many times `fn` was
invoked, the waits performed in order, and the final outcome. The error
side of the outcome is `none` when the rethrown `lastError` was still
`undefined` (zero attempts). -/
structure RetryTrace (T : Type) where
  calls : Nat
  waits : List ℚ
  outcome : Except (Option Thrown) T

/-- The source `for` loop of `withRetry`, by recursion on the remaining
attempt budget `fuel` (initially `options.maxRetries`); `attempt` is the
loop counter and `lastError` the accumulator variable. -/
def withRetryLoop {T : Type} (fn : Nat → Except Thrown T) (d b : ℚ) :
    Nat → Nat → Option Thrown → RetryTrace T
  | _, 0, lastError => ⟨0, [], .error lastError⟩
  | attempt, fuel + 1, _ =>
    match fn attempt with
    | .ok v => ⟨1, [], .ok v⟩
    | .error e =>
      if isRetryable e then
        let rest := withRetryLoop fn d b (attempt + 1) fuel (some e)
        ⟨rest.calls + 1, d * b ^ attempt :: rest.waits, rest.outcome⟩
      else ⟨1, [], .error (some e)⟩

/-- Source `withRetry`: runs the loop from attempt 0 with `lastError`
initially undefined. -/
def withRetry {T : Type} (fn : Nat → Except Thrown T) (o : RetryOptions) :
    RetryTrace T :=
  withRetryLoop fn o.delay o.backoffFactor 0 o.maxRetries none

/-- Source `fetchUserWithRetry`: invokes `withRetry` on the `apiRequest`
callback with maxRetries 3, delay 500 and backoffFactor 1.5. The network
behaviour of `apiRequest` is the parameter `apiReq`. -/
def fetchUserWithRetry {T : Type} (apiReq : Nat → Except Thrown T) :
    RetryTrace T :=
  withRetry apiReq ⟨3, 500, 1.5⟩

/-! Embedding of src/errorsHandling.ts, lines 554-661: form validation.
Each of the three field checks mirrors one push-to-errors block of
`validateUserForm`. -/

/-- Source `FieldError`. -/
structure FieldError where
  field : String
  message : String
  code : String
deriving DecidableEq, Repr

/-- Source `UserForm` (age is a JavaScript number). -/
structure UserForm where
  username : String
  email : String
  age : ℚ
deriving DecidableEq, Repr

/-- Source `ValidationResult with T`: tagged by the `valid` field. -/
inductive ValidationResult (T : Type) where
  | valid (data : T)
  | invalid (errors : List FieldError)

/-- The username block of `validateUserForm`: required truthy string, then
at least 3 characters. -/
def usernameCheck (u : JsValue) : List FieldError :=
  if ¬ truthy u ∨ typeofJs u ≠ "string" then
    [⟨"username", "Username is required and must be a string",
      "INVALID_USERNAME"⟩]
  else if (strOf u).length < 3 then
    [⟨"username", "Username must be at least 3 characters",
      "USERNAME_TOO_SHORT"⟩]
  else []

/-- The email block of `validateUserForm`: required truthy string, then
must include "@". -/
def emailCheck (e : JsValue) : List FieldError :=
  if ¬ truthy e ∨ typeofJs e ≠ "string" then
    [⟨"email", "Email is required and must be a string", "INVALID_EMAIL"⟩]
  else if ¬ includesChar (strOf e) '@' then
    [⟨"email", "Email must be a valid email address",
      "INVALID_EMAIL_FORMAT"⟩]
  else []

/-- The age block of `validateUserForm`: defined and a number, then at
least 18. -/
def ageCheck (a : JsValue) : List FieldError :=
  if isUndef a ∨ typeofJs a ≠ "number" then
    [⟨"age", "Age is required and must be a number", "INVALID_AGE"⟩]
  else if numOf a < 18 then
    [⟨"age", "You must be at least 18 years old", "AGE_TOO_YOUNG"⟩]
  else []

/-- Source `validateUserForm`: rejects non-object (or null) forms with the
single "_form" error, otherwise accumulates the username, email and age
errors in order and returns the valid branch exactly when no error was
pushed. -/
def validateUserForm (form : JsValue) : ValidationResult UserForm :=
  match form with
  | .obj fields =>
    let errors := usernameCheck (getField fields "username") ++
      emailCheck (getField fields "email") ++
      ageCheck (getField fields "age")
    if errors.isEmpty then
      .valid ⟨strOf (getField fields "username"),
        strOf (getField fields "email"), numOf (getField fields "age")⟩
    else .invalid errors
  | _ => .invalid [⟨"_form", "Form data must be an object", "INVALID_FORM"⟩]

/-! Embedding of src/generics.ts, lines 425-452: the `Collection` class.
For `map` and `filter` the receiver's `items` array is passed in and
returned so that any mutation of it would be visible. For `getAll`, array
aliasing matters, so arrays live in an explicit heap of cells addressed by
reference; a collection is the reference to its `items` array. -/

/-- A heap of JavaScript arrays; a reference is an index into `cells`. -/
structure ArrayHeap (T : Type) where
  cells : List (List T)

/-- Allocation of a fresh array (as done by `new Collection` or an array
literal): returns the grown heap and the new reference. -/
def allocArray {T : Type} (h : ArrayHeap T) (a : List T) : ArrayHeap T × Nat :=
  (⟨h.cells ++ [a]⟩, h.cells.length)

/-- Dereference an array. -/
def readArray {T : Type} (h : ArrayHeap T) (r : Nat) : List T :=
  h.cells.getD r []

/-- Overwrite the array behind a reference (a mutation such as `push` or an
index assignment performed by the caller on the array it was handed). -/
def writeArray {T : Type} (h : ArrayHeap T) (r : Nat) (a : List T) :
    ArrayHeap T :=
  ⟨h.cells.set r a⟩

namespace Collection

/-- Source `Collection.add`: `this.items.push(item)`. -/
def add {T : Type} (items : List T) (item : T) : List T := items ++ [item]

/-- Source `Collection.map`: builds a new `Collection` by `add`-ing `fn` of
each item in order; returns (receiver items after the call, new collection
items). -/
def map {T U : Type} (items : List T) (fn : T → U) : List T × List U :=
  (items, items.foldl (fun acc item => add acc (fn item)) [])

/-- Source `Collection.filter`: builds a new `Collection` from the items
satisfying the predicate, in order; returns (receiver items after the
call, new collection items). -/
def filter {T : Type} (items : List T) (predicate : T → Bool) :
    List T × List T :=
  (items, items.foldl (fun acc item =>
    if predicate item then add acc item else acc) [])

/-- Source `Collection.getAll`: `return [...this.items]` — allocates a
fresh array holding a copy of the receiver's items and returns its
reference. -/
def getAll {T : Type} (h : ArrayHeap T) (c : Nat) : ArrayHeap T × Nat :=
  allocArray h (readArray h c)

end Collection

end Ts

/-- Claim C8: for all numbers a and b, `divide(a, b)` returns the failure
branch carrying the "Division by zero" error exactly when b = 0 and
`{success: true, value: a / b}` otherwise, and `divideEither(a, b)` returns
`left("Division by zero")` exactly when b = 0 and `right(a / b)` otherwise. -/
theorem Ts.C8_divide_divideEither (a b : ℚ) :
    (Ts.divide a b = Ts.Result.failure "Division by zero" ↔ b = 0) ∧
    (b ≠ 0 → Ts.divide a b = Ts.Result.success (a / b)) ∧
    (Ts.divideEither a b = Ts.Either.left "Division by zero" ↔ b = 0) ∧
    (b ≠ 0 → Ts.divideEither a b = Ts.Either.right (a / b)) := by
  refine ⟨?_, ?_, ?_, ?_⟩ <;>
    by_cases hb : b = 0 <;> simp [Ts.divide, Ts.divideEither, hb]

/-- Witness for C8 at a = 10, b = 2 (success side) and b = 0 (failure side). -/
theorem Ts.C8_witness :
    Ts.divide 10 2 = Ts.Result.success 5 ∧
    Ts.divideEither 10 0 = Ts.Either.left "Division by zero" := by
  constructor
  · have h := (Ts.C8_divide_divideEither 10 2).2.1 (by norm_num)
    rw [h]; norm_num
  · exact (Ts.C8_divide_divideEither 10 0).2.2.1.mpr rfl

/-- Claim C2 counterexample: the claim says no method rejects an argument of
its declared static type at runtime, yet `BankAccount.deposit` throws on the
number 0 and the `Temperature` celsius setter throws on the number -300. -/
theorem Ts.C2_counterexample :
    Ts.BankAccount.deposit 1000 0 =
      Except.error "Deposit amount must be positive" ∧
    Ts.Temperature.celsiusSet 0 (-300) =
      Except.error "Temperature below absolute zero is not possible" := by
  constructor
  · simp [Ts.BankAccount.deposit]
  · rw [Ts.Temperature.celsiusSet, if_pos (by norm_num)]

/-- Claim C2 (amended): two classes do enforce runtime preconditions beyond
the static type: `BankAccount.deposit` succeeds exactly on positive amounts
(then adds the amount to the balance) and the `Temperature` celsius setter
succeeds exactly on values not below -273.15, so every stored celsius value
satisfies the invariant -273.15 ≤ value. -/
theorem Ts.C2_amended (b a c v : ℚ) :
    ((∃ b2, Ts.BankAccount.deposit b a = Except.ok b2) ↔ 0 < a) ∧
    (0 < a → Ts.BankAccount.deposit b a = Except.ok (b + a)) ∧
    ((∃ c2, Ts.Temperature.celsiusSet c v = Except.ok c2) ↔ -273.15 ≤ v) ∧
    (∀ c2, Ts.Temperature.celsiusSet c v = Except.ok c2 → -273.15 ≤ c2) := by
  refine ⟨?_, ?_, ?_, ?_⟩
  · by_cases ha : a ≤ 0 <;> simp [Ts.BankAccount.deposit, ha] <;> linarith
  · intro ha
    simp [Ts.BankAccount.deposit, not_le.mpr ha]
  · by_cases hv : v < -273.15 <;> simp [Ts.Temperature.celsiusSet, hv] <;> linarith
  · intro c2 h
    by_cases hv : v < -273.15
    · simp [Ts.Temperature.celsiusSet, hv] at h
    · simp [Ts.Temperature.celsiusSet, hv] at h
      rw [← h]
      linarith [not_lt.mp hv]

/-- Witness for C2 (amended) at deposit(1000, 500) and celsius := 25. -/
theorem Ts.C2_witness :
    (0 : ℚ) < 500 ∧
    Ts.BankAccount.deposit 1000 500 = Except.ok (1000 + 500) ∧
    (∀ c2, Ts.Temperature.celsiusSet 0 25 = Except.ok c2 → -273.15 ≤ c2) :=
  ⟨by norm_num, (Ts.C2_amended 1000 500 0 25).2.1 (by norm_num),
    (Ts.C2_amended 1000 500 0 25).2.2.2⟩

/-- Claim C6 counterexample: the claim says no pair of operations satisfies a
round-trip law, yet setting the fahrenheit accessor to 68 and reading the
fahrenheit accessor back recovers 68. -/
theorem Ts.C6_counterexample :
    (Ts.Temperature.fahrenheitSet 0 68).map Ts.Temperature.fahrenheitGet =
      Except.ok 68 := by
  rw [Ts.Temperature.fahrenheitSet, Ts.Temperature.celsiusSet,
    if_neg (by norm_num)]
  show Except.ok (Ts.Temperature.fahrenheitGet (((68 : ℚ) - 32) * 5 / 9)) = _
  rw [Ts.Temperature.fahrenheitGet]
  norm_num

/-- Claim C6 (amended): the `Temperature` accessors satisfy round-trip laws:
writing any admissible value through the fahrenheit (resp. celsius) setter
and reading the same accessor back returns the written value, and the
celsius-to-fahrenheit formula of the getter and the fahrenheit-to-celsius
formula of the setter are mutually inverse conversions. -/
theorem Ts.C6_amended (c v : ℚ) :
    (-273.15 ≤ (v - 32) * 5 / 9 →
      (Ts.Temperature.fahrenheitSet c v).map Ts.Temperature.fahrenheitGet =
        Except.ok v) ∧
    (-273.15 ≤ v →
      (Ts.Temperature.celsiusSet c v).map Ts.Temperature.celsiusGet =
        Except.ok v) ∧
    Ts.Temperature.fahrenheitGet ((v - 32) * 5 / 9) = v ∧
    (Ts.Temperature.fahrenheitGet c - 32) * 5 / 9 = c := by
  refine ⟨?_, ?_, ?_, ?_⟩
  · intro h
    rw [Ts.Temperature.fahrenheitSet, Ts.Temperature.celsiusSet,
      if_neg (not_lt.mpr h)]
    show Except.ok (Ts.Temperature.fahrenheitGet ((v - 32) * 5 / 9)) = _
    rw [Ts.Temperature.fahrenheitGet]
    ring_nf
  · intro h
    rw [Ts.Temperature.celsiusSet, if_neg (not_lt.mpr h)]
    rfl
  · rw [Ts.Temperature.fahrenheitGet]; ring
  · rw [Ts.Temperature.fahrenheitGet]; ring

/-- Witness for C6 (amended) at fahrenheit := 68 over the initial state 0. -/
theorem Ts.C6_witness :
    (-273.15 : ℚ) ≤ ((68 : ℚ) - 32) * 5 / 9 ∧
    (Ts.Temperature.fahrenheitSet 0 68).map Ts.Temperature.fahrenheitGet =
      Except.ok 68 :=
  ⟨by norm_num, (Ts.C6_amended 0 68).1 (by norm_num)⟩

/-- Claim C3 counterexample: the claim says every operation's result is
independent of calls made before it, yet `Container.getCount()` after the
two constructions performed in the source differs from `Container.getCount()`
on the initial static state. -/
theorem Ts.C3_counterexample :
    Ts.Container.getCount
        (Ts.Container.construct (Ts.Container.construct 0)) ≠
      Ts.Container.getCount 0 := by
  decide

/-- Claim C3 (amended): several snippets do maintain mutable state across
calls — `Container`'s static count, `createState`'s closure state and
`Box`'s private value — and each operation is deterministic in the pair
(state, arguments): `getCount` returns the number of constructions
performed, `get` returns the last `set` value, and `getValue` returns the
last `setValue` argument. -/
theorem Ts.C3_amended {T : Type} (n : Nat) (s v : T) :
    Ts.Container.getCount (Ts.Container.constructN n) = n ∧
    Ts.createStateGet (Ts.createStateSet s v) = v ∧
    Ts.Box.getValue (Ts.Box.setValue s v) = v := by
  refine ⟨?_, rfl, rfl⟩
  induction n with
  | zero => rfl
  | succ n ih =>
    simpa [Ts.Container.constructN, Ts.Container.construct,
      Ts.Container.getCount] using ih

/-- Claim C5: `assertIsString` returns normally exactly on strings, so
`processInput` upper-cases every string input and throws on every
non-string input. -/
theorem Ts.C5_assertIsString (v : Ts.JsValue) (message : String) :
    (Ts.assertIsString v message = Except.ok () ↔
      ∃ s, v = Ts.JsValue.str s) ∧
    (∀ s, Ts.processInput (Ts.JsValue.str s) = Except.ok s.toUpper) ∧
    ((∀ s, v ≠ Ts.JsValue.str s) → ∃ e, Ts.processInput v = Except.error e) := by
  refine ⟨?_, ?_, ?_⟩
  · cases v <;> simp [Ts.assertIsString, Ts.typeofJs]
  · intro s
    simp [Ts.processInput, Ts.assertIsString, Ts.typeofJs, Ts.strOf]
  · intro hv
    cases v with
    | str s => exact absurd rfl (hv s)
    | _ => simp [Ts.processInput, Ts.assertIsString, Ts.typeofJs]

/-- Witness for C5 on the string "hello" and the non-string 42. -/
theorem Ts.C5_witness :
    Ts.processInput (Ts.JsValue.str "hello") = Except.ok "hello".toUpper ∧
    (∃ e, Ts.processInput (Ts.JsValue.num 42) = Except.error e) := by
  constructor
  · exact
      (Ts.C5_assertIsString (Ts.JsValue.str "hello") "Input must be a string").2.1
        "hello"
  · exact (Ts.C5_assertIsString (Ts.JsValue.num 42) "Input must be a string").2.2
      (by intro s h; cases h)

/-- Claim C7: `isFish` answers true on every pet of the Fish shape and
false on every pet of the Bird shape, so the runtime check agrees exactly
with the static narrowing. -/
theorem Ts.C7_isFish (pet : Ts.PetObj) :
    (Ts.isFishShape pet → Ts.isFish pet = true) ∧
    (Ts.isBirdShape pet → Ts.isFish pet = false) := by
  constructor
  · rintro ⟨hs, -⟩
    exact hs
  · rintro ⟨-, -, hs⟩
    simp [Ts.isFish, hs]

/-- Witness for C7 on a concrete Fish-shaped pet and Bird-shaped pet. -/
theorem Ts.C7_witness :
    Ts.isFish ⟨some (), none, some ()⟩ = true ∧
    Ts.isFish ⟨none, some (), some ()⟩ = false :=
  ⟨(Ts.C7_isFish ⟨some (), none, some ()⟩).1 ⟨rfl, rfl⟩,
    (Ts.C7_isFish ⟨none, some (), some ()⟩).2 ⟨rfl, rfl, rfl⟩⟩

/-- Claim C4 counterexample: the claim says no example function computes
its result by invoking another example function, yet `performDivision` is
exactly the narrowing of `divide`'s result, `saveUser` is exactly the
try/catch around `validateUser`, and `fetchUserWithRetry` is exactly
`withRetry` applied to the `apiRequest` callback with its options. -/
theorem Ts.C4_counterexample :
    Ts.performDivision = (fun a b =>
      match Ts.divide a b with
      | Ts.Result.success v => some v
      | Ts.Result.failure _ => none) ∧
    Ts.saveUser = (fun user =>
      match Ts.validateUser user with
      | Except.error message => Ts.SaveOutcome.validationFailed message
      | Except.ok _ => Ts.SaveOutcome.saved) ∧
    Ts.fetchUserWithRetry (T := Unit) =
      (fun apiReq => Ts.withRetry apiReq ⟨3, 500, 1.5⟩) :=
  ⟨rfl, rfl, rfl⟩

/-- Claim C4 (amended): several example functions do invoke other example
functions of the repository: `performDivision` returns `divide`'s value on
success and null on division by zero, `saveUser` reports a validation
failure exactly when `validateUser` throws (and saves exactly when it
returns), and `fetchUserWithRetry` is `withRetry` at maxRetries 3,
delay 500, backoffFactor 1.5. -/
theorem Ts.C4_amended (a b : ℚ) (user : Ts.JsValue) :
    (b ≠ 0 → Ts.performDivision a b = some (a / b)) ∧
    Ts.performDivision a 0 = none ∧
    (Ts.saveUser user = Ts.SaveOutcome.saved ↔
      Ts.validateUser user = Except.ok ()) ∧
    (∀ m, Ts.saveUser user = Ts.SaveOutcome.validationFailed m ↔
      Ts.validateUser user = Except.error m) ∧
    (∀ fn : Nat → Except Ts.Thrown Ts.JsValue,
      Ts.fetchUserWithRetry fn = Ts.withRetry fn ⟨3, 500, 1.5⟩) := by
  refine ⟨?_, ?_, ?_, ?_, fun _ => rfl⟩
  · intro hb
    simp [Ts.performDivision, Ts.divide, hb]
  · simp [Ts.performDivision, Ts.divide]
  · cases h : Ts.validateUser user <;> simp [Ts.saveUser, h]
  · intro m
    cases h : Ts.validateUser user <;> simp [Ts.saveUser, h]

/-- Witness for C4 (amended) at divide(10, 2) and saveUser(null). -/
theorem Ts.C4_witness :
    Ts.performDivision 10 2 = some 5 ∧
    Ts.saveUser Ts.JsValue.null =
      Ts.SaveOutcome.validationFailed "User must be an object" := by
  constructor
  · have h := (Ts.C4_amended 10 2 Ts.JsValue.null).1 (by norm_num)
    rw [h]
    norm_num
  · exact ((Ts.C4_amended 10 2 Ts.JsValue.null).2.2.2.1
      "User must be an object").mpr (by rfl)

/-- Helper: `forEach`-ing `add` of `fn` over a list appends the mapped
items to the accumulated collection. -/
theorem Ts.foldlAdd_eq_append_map {T U : Type} (fn : T → U) (items : List T) :
    ∀ acc : List U,
      items.foldl (fun acc item => Ts.Collection.add acc (fn item)) acc =
        acc ++ items.map fn := by
  induction items with
  | nil => intro acc; simp
  | cons x xs ih =>
    intro acc
    rw [List.foldl_cons, ih]
    simp [Ts.Collection.add]

/-- Helper: `forEach`-ing a guarded `add` over a list appends the filtered
items to the accumulated collection. -/
theorem Ts.foldlFilterAdd_eq_append_filter {T : Type} (p : T → Bool)
    (items : List T) :
    ∀ acc : List T,
      items.foldl
        (fun acc item => if p item then Ts.Collection.add acc item else acc)
        acc = acc ++ items.filter p := by
  induction items with
  | nil => intro acc; simp
  | cons x xs ih =>
    intro acc
    rw [List.foldl_cons, ih]
    by_cases hp : p x <;> simp [List.filter_cons, hp, Ts.Collection.add]

/-- Helper: overwriting the freshly appended cell of a heap leaves the
original cells untouched. -/
theorem Ts.set_append_length {α : Type} (l : List α) (x a : α) :
    (l ++ [x]).set l.length a = l ++ [a] := by
  induction l with
  | nil => rfl
  | cons y ys ih =>
    show y :: (ys ++ [x]).set ys.length a = y :: (ys ++ [a])
    exact congrArg (List.cons y) ih

/-- Claim C10: `Collection.map` and `Collection.filter` return the receiver's
items unchanged while building the new collection's items fresh, and
`Collection.getAll` returns a reference to a fresh copy of the items array,
so overwriting the returned array never changes the collection's contents. -/
theorem Ts.C10_collection {T U : Type} (items : List T) (f : T → U)
    (p : T → Bool) (h : Ts.ArrayHeap T) (c : Nat)
    (hc : c < h.cells.length) :
    (Ts.Collection.map items f).1 = items ∧
    (Ts.Collection.map items f).2 = items.map f ∧
    (Ts.Collection.filter items p).1 = items ∧
    (Ts.Collection.filter items p).2 = items.filter p ∧
    Ts.readArray (Ts.Collection.getAll h c).1 (Ts.Collection.getAll h c).2 =
      Ts.readArray h c ∧
    (Ts.Collection.getAll h c).2 ≠ c ∧
    (∀ a, Ts.readArray
        (Ts.writeArray (Ts.Collection.getAll h c).1
          (Ts.Collection.getAll h c).2 a) c =
      Ts.readArray h c) := by
  refine ⟨rfl, ?_, rfl, ?_, ?_, ?_, ?_⟩
  · simpa using Ts.foldlAdd_eq_append_map f items []
  · simpa using Ts.foldlFilterAdd_eq_append_filter p items []
  · show (h.cells ++ [Ts.readArray h c]).getD h.cells.length [] =
      Ts.readArray h c
    rw [List.getD_append_right _ _ _ _ (Nat.le_refl _)]
    simp
  · exact (Nat.ne_of_lt hc).symm
  · intro a
    show ((h.cells ++ [Ts.readArray h c]).set h.cells.length a).getD c [] =
      Ts.readArray h c
    rw [Ts.set_append_length, List.getD_append _ _ _ _ hc]
    rfl

/-- Witness for C10 on a two-cell heap with the collection at cell 0. -/
theorem Ts.C10_witness :
    (0 : Nat) < (Ts.ArrayHeap.mk [[1, 2], [3]] : Ts.ArrayHeap Nat).cells.length ∧
    (∀ a, Ts.readArray
        (Ts.writeArray (Ts.Collection.getAll ⟨[[1, 2], [3]]⟩ 0).1
          (Ts.Collection.getAll (⟨[[1, 2], [3]]⟩ : Ts.ArrayHeap Nat) 0).2 a) 0 =
      Ts.readArray (⟨[[1, 2], [3]]⟩ : Ts.ArrayHeap Nat) 0) :=
  ⟨by decide,
    (Ts.C10_collection [1, 2, 3] (· + 1) (fun _ => true)
      ⟨[[1, 2], [3]]⟩ 0 (by decide)).2.2.2.2.2.2⟩

/-- Helper: the username block pushes no error exactly for strings of
length at least 3. -/
theorem Ts.usernameCheck_eq_nil (u : Ts.JsValue) :
    Ts.usernameCheck u = [] ↔ ∃ s, u = Ts.JsValue.str s ∧ 3 ≤ s.length := by
  cases u with
  | str s =>
    by_cases hs : s = ""
    · subst hs
      have h1 : ("" : String).isEmpty = true := by decide
      simp [Ts.usernameCheck, Ts.truthy, Ts.typeofJs, h1]
    · by_cases hl : s.length < 3 <;>
        simp [Ts.usernameCheck, Ts.truthy, Ts.typeofJs, Ts.strOf, hl,
          String.isEmpty_iff, hs] <;>
        omega
  | _ => simp [Ts.usernameCheck, Ts.truthy, Ts.typeofJs]

/-- Helper: the email block pushes no error exactly for non-empty strings
containing "@". -/
theorem Ts.emailCheck_eq_nil (u : Ts.JsValue) :
    Ts.emailCheck u = [] ↔
      ∃ s, u = Ts.JsValue.str s ∧ s ≠ "" ∧ Ts.includesChar s '@' = true := by
  cases u with
  | str s =>
    by_cases hs : s = ""
    · subst hs
      have h1 : ("" : String).isEmpty = true := by decide
      simp [Ts.emailCheck, Ts.truthy, Ts.typeofJs, h1]
    · by_cases hc : Ts.includesChar s '@' <;>
        simp [Ts.emailCheck, Ts.truthy, Ts.typeofJs, Ts.strOf, hc,
          String.isEmpty_iff, hs]
  | _ => simp [Ts.emailCheck, Ts.truthy, Ts.typeofJs]

/-- Helper: the age block pushes no error exactly for numbers at
least 18. -/
theorem Ts.ageCheck_eq_nil (u : Ts.JsValue) :
    Ts.ageCheck u = [] ↔ ∃ q, u = Ts.JsValue.num q ∧ 18 ≤ q := by
  cases u with
  | num q =>
    by_cases hq : q < 18 <;>
      simp [Ts.ageCheck, Ts.isUndef, Ts.typeofJs, Ts.numOf, hq] <;>
      linarith
  | _ => simp [Ts.ageCheck, Ts.isUndef, Ts.typeofJs]

/-- Helper: unfolding of `validateUserForm` on an object form. -/
theorem Ts.validateUserForm_obj (fields : List (String × Ts.JsValue)) :
    Ts.validateUserForm (Ts.JsValue.obj fields) =
      if (Ts.usernameCheck (Ts.getField fields "username") ++
          Ts.emailCheck (Ts.getField fields "email") ++
          Ts.ageCheck (Ts.getField fields "age")).isEmpty then
        Ts.ValidationResult.valid
          ⟨Ts.strOf (Ts.getField fields "username"),
            Ts.strOf (Ts.getField fields "email"),
            Ts.numOf (Ts.getField fields "age")⟩
      else
        Ts.ValidationResult.invalid
          (Ts.usernameCheck (Ts.getField fields "username") ++
            Ts.emailCheck (Ts.getField fields "email") ++
            Ts.ageCheck (Ts.getField fields "age")) := rfl

/-- Helper: `validateUserForm` on anything that is not a non-null object. -/
theorem Ts.validateUserForm_not_obj (form : Ts.JsValue)
    (h : ∀ fields, form ≠ Ts.JsValue.obj fields) :
    Ts.validateUserForm form =
      Ts.ValidationResult.invalid
        [⟨"_form", "Form data must be an object", "INVALID_FORM"⟩] := by
  cases form with
  | obj fields => exact absurd rfl (h fields)
  | _ => rfl

/-- Claim C9: `validateUserForm` returns the valid branch exactly for
non-null objects whose username is a string of length at least 3, whose
email is a non-empty string containing "@" and whose age is a number at
least 18 (and then the returned data carries those fields); every other
input yields a non-empty error list, and a non-object input yields the
single "_form" error. -/
theorem Ts.C9_validateUserForm (form : Ts.JsValue) :
    ((∃ d, Ts.validateUserForm form = Ts.ValidationResult.valid d) ↔
      (∃ fields u e a, form = Ts.JsValue.obj fields ∧
        Ts.getField fields "username" = Ts.JsValue.str u ∧ 3 ≤ u.length ∧
        Ts.getField fields "email" = Ts.JsValue.str e ∧ e ≠ "" ∧
        Ts.includesChar e '@' = true ∧
        Ts.getField fields "age" = Ts.JsValue.num a ∧ 18 ≤ a)) ∧
    (∀ fields u e a, form = Ts.JsValue.obj fields →
      Ts.getField fields "username" = Ts.JsValue.str u → 3 ≤ u.length →
      Ts.getField fields "email" = Ts.JsValue.str e →
      Ts.includesChar e '@' = true →
      Ts.getField fields "age" = Ts.JsValue.num a → 18 ≤ a →
      Ts.validateUserForm form = Ts.ValidationResult.valid ⟨u, e, a⟩) ∧
    (∀ errs, Ts.validateUserForm form = Ts.ValidationResult.invalid errs →
      errs ≠ []) ∧
    ((∀ fields, form ≠ Ts.JsValue.obj fields) →
      Ts.validateUserForm form =
        Ts.ValidationResult.invalid
          [⟨"_form", "Form data must be an object", "INVALID_FORM"⟩]) := by
  refine ⟨⟨?_, ?_⟩, ?_, ?_, Ts.validateUserForm_not_obj form⟩
  · rintro ⟨d, hd⟩
    cases form with
    | obj fields =>
      rw [Ts.validateUserForm_obj] at hd
      by_cases hE : (Ts.usernameCheck (Ts.getField fields "username") ++
          Ts.emailCheck (Ts.getField fields "email") ++
          Ts.ageCheck (Ts.getField fields "age")).isEmpty
      · obtain ⟨h1, h2, h3⟩ :
            Ts.usernameCheck (Ts.getField fields "username") = [] ∧
            Ts.emailCheck (Ts.getField fields "email") = [] ∧
            Ts.ageCheck (Ts.getField fields "age") = [] := by
          have h := List.isEmpty_iff.mp hE
          rw [List.append_eq_nil, List.append_eq_nil] at h
          exact ⟨h.1.1, h.1.2, h.2⟩
        obtain ⟨u, hu, hul⟩ := (Ts.usernameCheck_eq_nil _).mp h1
        obtain ⟨e, he, hene, hec⟩ := (Ts.emailCheck_eq_nil _).mp h2
        obtain ⟨a, ha, haq⟩ := (Ts.ageCheck_eq_nil _).mp h3
        exact ⟨fields, u, e, a, rfl, hu, hul, he, hene, hec, ha, haq⟩
      · rw [if_neg hE] at hd
        simp at hd
    | _ => simp [Ts.validateUserForm] at hd
  · rintro ⟨fields, u, e, a, rfl, hu, hul, he, hene, hec, ha, haq⟩
    rw [Ts.validateUserForm_obj,
      (Ts.usernameCheck_eq_nil _).mpr ⟨u, hu, hul⟩,
      (Ts.emailCheck_eq_nil _).mpr ⟨e, he, hene, hec⟩,
      (Ts.ageCheck_eq_nil _).mpr ⟨a, ha, haq⟩]
    exact ⟨_, rfl⟩
  · rintro fields u e a rfl hu hul he hec ha haq
    have hene : e ≠ "" := by
      rintro rfl
      exact absurd hec (by decide)
    rw [Ts.validateUserForm_obj,
      (Ts.usernameCheck_eq_nil _).mpr ⟨u, hu, hul⟩,
      (Ts.emailCheck_eq_nil _).mpr ⟨e, he, hene, hec⟩,
      (Ts.ageCheck_eq_nil _).mpr ⟨a, ha, haq⟩,
      hu, he, ha]
    simp [Ts.strOf, Ts.numOf]
  · intro errs herr hnil
    subst hnil
    cases form with
    | obj fields =>
      rw [Ts.validateUserForm_obj] at herr
      by_cases hE : (Ts.usernameCheck (Ts.getField fields "username") ++
          Ts.emailCheck (Ts.getField fields "email") ++
          Ts.ageCheck (Ts.getField fields "age")).isEmpty
      · rw [if_pos hE] at herr
        simp at herr
      · rw [if_neg hE] at herr
        injection herr with h
        rw [h] at hE
        exact hE rfl
    | _ => simp [Ts.validateUserForm] at herr

/-- Witness for C9 on a fully valid form and on the non-object input 7. -/
theorem Ts.C9_witness :
    Ts.validateUserForm
        (Ts.JsValue.obj
          [("username", Ts.JsValue.str "john"),
            ("email", Ts.JsValue.str "j@x.com"),
            ("age", Ts.JsValue.num 30)]) =
      Ts.ValidationResult.valid ⟨"john", "j@x.com", 30⟩ ∧
    Ts.validateUserForm (Ts.JsValue.num 7) =
      Ts.ValidationResult.invalid
        [⟨"_form", "Form data must be an object", "INVALID_FORM"⟩] := by
  constructor
  · exact (Ts.C9_validateUserForm _).2.1
      [("username", Ts.JsValue.str "john"),
        ("email", Ts.JsValue.str "j@x.com"),
        ("age", Ts.JsValue.num 30)]
      "john" "j@x.com" 30 rfl (by rfl) (by decide) (by rfl) (by decide)
      (by rfl) (by norm_num)
  · exact (Ts.C9_validateUserForm (Ts.JsValue.num 7)).2.2.2
      (by intro fields h; cases h)

/-- Helper: the retry loop with an exhausted budget rethrows `lastError`. -/
theorem Ts.withRetryLoop_zero {T : Type} (fn : Nat → Except Ts.Thrown T)
    (d b : ℚ) (a : Nat) (le : Option Ts.Thrown) :
    Ts.withRetryLoop fn d b a 0 le = ⟨0, [], Except.error le⟩ := rfl

/-- Helper: a successful attempt returns immediately. -/
theorem Ts.withRetryLoop_ok {T : Type} (fn : Nat → Except Ts.Thrown T)
    (d b : ℚ) (a fuel : Nat) (le : Option Ts.Thrown) (v : T)
    (h : fn a = Except.ok v) :
    Ts.withRetryLoop fn d b a (fuel + 1) le = ⟨1, [], Except.ok v⟩ := by
  simp [Ts.withRetryLoop, h]

/-- Helper: a retryable failure waits `d * b ^ attempt` and continues with
the failure recorded as `lastError`. -/
theorem Ts.withRetryLoop_retry {T : Type} (fn : Nat → Except Ts.Thrown T)
    (d b : ℚ) (a fuel : Nat) (le : Option Ts.Thrown) (e : Ts.Thrown)
    (h : fn a = Except.error e) (hr : Ts.isRetryable e = true) :
    Ts.withRetryLoop fn d b a (fuel + 1) le =
      ⟨(Ts.withRetryLoop fn d b (a + 1) fuel (some e)).calls + 1,
        d * b ^ a :: (Ts.withRetryLoop fn d b (a + 1) fuel (some e)).waits,
        (Ts.withRetryLoop fn d b (a + 1) fuel (some e)).outcome⟩ := by
  simp [Ts.withRetryLoop, h, hr]

/-- Helper: a non-retryable failure is rethrown immediately. -/
theorem Ts.withRetryLoop_stop {T : Type} (fn : Nat → Except Ts.Thrown T)
    (d b : ℚ) (a fuel : Nat) (le : Option Ts.Thrown) (e : Ts.Thrown)
    (h : fn a = Except.error e) (hr : Ts.isRetryable e = false) :
    Ts.withRetryLoop fn d b a (fuel + 1) le = ⟨1, [], Except.error (some e)⟩ := by
  simp [Ts.withRetryLoop, h, hr]

/-- Helper: the loop performs at most `fuel` calls. -/
theorem Ts.withRetryLoop_calls_le {T : Type} (fn : Nat → Except Ts.Thrown T)
    (d b : ℚ) :
    ∀ (fuel a : Nat) (le : Option Ts.Thrown),
      (Ts.withRetryLoop fn d b a fuel le).calls ≤ fuel := by
  intro fuel
  induction fuel with
  | zero =>
    intro a le
    rw [Ts.withRetryLoop_zero]
  | succ f ih =>
    intro a le
    cases hf : fn a with
    | ok v =>
      rw [Ts.withRetryLoop_ok fn d b a f le v hf]
      show 1 ≤ f + 1
      omega
    | error e =>
      cases hr : Ts.isRetryable e with
      | true =>
        rw [Ts.withRetryLoop_retry fn d b a f le e hf hr]
        have := ih (a + 1) (some e)
        show (Ts.withRetryLoop fn d b (a + 1) f (some e)).calls + 1 ≤ f + 1
        omega
      | false =>
        rw [Ts.withRetryLoop_stop fn d b a f le e hf hr]
        show 1 ≤ f + 1
        omega


/-- Helper: the i-th wait performed by the loop started at `attempt = a` is
`d * b ^ (a + i)`. -/
theorem Ts.withRetryLoop_waits {T : Type} (fn : Nat → Except Ts.Thrown T)
    (d b : ℚ) :
    ∀ (fuel a : Nat) (le : Option Ts.Thrown) (i : Nat),
      i < (Ts.withRetryLoop fn d b a fuel le).waits.length →
      (Ts.withRetryLoop fn d b a fuel le).waits.getD i 0 =
        d * b ^ (a + i) := by
  intro fuel
  induction fuel with
  | zero =>
    intro a le i h
    rw [Ts.withRetryLoop_zero] at h
    simp at h
  | succ f ih =>
    intro a le i h
    cases hf : fn a with
    | ok v =>
      rw [Ts.withRetryLoop_ok fn d b a f le v hf] at h
      simp at h
    | error e =>
      cases hr : Ts.isRetryable e with
      | false =>
        rw [Ts.withRetryLoop_stop fn d b a f le e hf hr] at h
        simp at h
      | true =>
        rw [Ts.withRetryLoop_retry fn d b a f le e hf hr] at h ⊢
        cases i with
        | zero => simp
        | succ j =>
          have hj : j <
              (Ts.withRetryLoop fn d b (a + 1) f (some e)).waits.length := by
            simpa using h
          have hrec := ih (a + 1) (some e) j hj
          show (Ts.withRetryLoop fn d b (a + 1) f (some e)).waits.getD j 0 =
            d * b ^ (a + (j + 1))
          rw [hrec]
          congr 2
          omega

/-- Helper: if the attempts before `a + j` all fail retryably and attempt
`a + j` fails non-retryably within the budget, the loop stops right there,
rethrowing that error after `j + 1` calls. -/
theorem Ts.withRetryLoop_first_nonretryable {T : Type}
    (fn : Nat → Except Ts.Thrown T) (d b : ℚ) :
    ∀ (j fuel a : Nat) (le : Option Ts.Thrown) (e : Ts.Thrown),
      j < fuel → fn (a + j) = Except.error e → Ts.isRetryable e = false →
      (∀ i, i < j →
        ∃ e2, fn (a + i) = Except.error e2 ∧ Ts.isRetryable e2 = true) →
      (Ts.withRetryLoop fn d b a fuel le).calls = j + 1 ∧
      (Ts.withRetryLoop fn d b a fuel le).outcome = Except.error (some e) := by
  intro j
  induction j with
  | zero =>
    intro fuel a le e hj hf hr _
    cases fuel with
    | zero => omega
    | succ f =>
      rw [Ts.withRetryLoop_stop fn d b a f le e (by simpa using hf) hr]
      exact ⟨rfl, rfl⟩
  | succ j ih =>
    intro fuel a le e hj hf hr hall
    cases fuel with
    | zero => omega
    | succ f =>
      obtain ⟨e0, hf0, hr0⟩ := hall 0 (Nat.succ_pos j)
      rw [Nat.add_zero] at hf0
      rw [Ts.withRetryLoop_retry fn d b a f le e0 hf0 hr0]
      have hrec := ih f (a + 1) (some e0) e (by omega)
        (by rw [show a + 1 + j = a + (j + 1) by omega]; exact hf) hr
        (fun i hi => by
          have hx := hall (i + 1) (by omega)
          rwa [show a + (i + 1) = a + 1 + i by omega] at hx)
      constructor
      · show (Ts.withRetryLoop fn d b (a + 1) f (some e0)).calls + 1 = j + 1 + 1
        rw [hrec.1]
      · exact hrec.2

/-- Helper: if every attempt in the budget fails retryably, the loop
exhausts the budget and rethrows the error of the final attempt. -/
theorem Ts.withRetryLoop_exhausted {T : Type}
    (fn : Nat → Except Ts.Thrown T) (d b : ℚ) :
    ∀ (fuel a : Nat) (le : Option Ts.Thrown) (e : Ts.Thrown),
      0 < fuel →
      (∀ i, i < fuel →
        ∃ e2, fn (a + i) = Except.error e2 ∧ Ts.isRetryable e2 = true) →
      fn (a + (fuel - 1)) = Except.error e →
      (Ts.withRetryLoop fn d b a fuel le).calls = fuel ∧
      (Ts.withRetryLoop fn d b a fuel le).outcome = Except.error (some e) := by
  intro fuel
  induction fuel with
  | zero =>
    intro a le e h
    omega
  | succ f ih =>
    intro a le e _ hall hlast
    obtain ⟨e0, hf0, hr0⟩ := hall 0 (Nat.succ_pos f)
    rw [Nat.add_zero] at hf0
    rw [Ts.withRetryLoop_retry fn d b a f le e0 hf0 hr0]
    cases f with
    | zero =>
      have hlast2 : fn a = Except.error e := by simpa using hlast
      have he : e0 = e := by
        rw [hf0] at hlast2
        injection hlast2
      constructor
      · rfl
      · show (Ts.withRetryLoop fn d b (a + 1) 0 (some e0)).outcome =
          Except.error (some e)
        rw [Ts.withRetryLoop_zero, he]
    | succ f2 =>
      have hrec := ih (a + 1) (some e0) e (Nat.succ_pos f2)
        (fun i hi => by
          have hx := hall (i + 1) (by omega)
          rwa [show a + (i + 1) = a + 1 + i by omega] at hx)
        (by
          rwa [show a + (f2 + 1 + 1 - 1) = a + 1 + (f2 + 1 - 1) by omega]
            at hlast)
      constructor
      · show (Ts.withRetryLoop fn d b (a + 1) (f2 + 1) (some e0)).calls + 1 =
          f2 + 1 + 1
        rw [hrec.1]
      · exact hrec.2

/-- Claim C1: `withRetry(fn, options)` invokes `fn` at most
`options.maxRetries` times; the i-th wait it performs is
`options.delay * options.backoffFactor ^ i`; a non-retryable error (not an
`ApiError` with status at least 500) thrown by attempt j, after retryable
failures of every earlier attempt, is rethrown immediately after j + 1
invocations; and if every attempt fails retryably the budget is exhausted
and the last attempt's error is thrown. -/
theorem Ts.C1_withRetry {T : Type} (fn : Nat → Except Ts.Thrown T)
    (o : Ts.RetryOptions) :
    (Ts.withRetry fn o).calls ≤ o.maxRetries ∧
    (∀ i, i < (Ts.withRetry fn o).waits.length →
      (Ts.withRetry fn o).waits.getD i 0 =
        o.delay * o.backoffFactor ^ i) ∧
    (∀ j e, j < o.maxRetries → fn j = Except.error e →
      Ts.isRetryable e = false →
      (∀ i, i < j →
        ∃ e2, fn i = Except.error e2 ∧ Ts.isRetryable e2 = true) →
      (Ts.withRetry fn o).calls = j + 1 ∧
      (Ts.withRetry fn o).outcome = Except.error (some e)) ∧
    (∀ e, 0 < o.maxRetries →
      (∀ i, i < o.maxRetries →
        ∃ e2, fn i = Except.error e2 ∧ Ts.isRetryable e2 = true) →
      fn (o.maxRetries - 1) = Except.error e →
      (Ts.withRetry fn o).calls = o.maxRetries ∧
      (Ts.withRetry fn o).outcome = Except.error (some e)) := by
  refine ⟨?_, ?_, ?_, ?_⟩
  · exact Ts.withRetryLoop_calls_le fn o.delay o.backoffFactor o.maxRetries 0
      none
  · intro i h
    have hx := Ts.withRetryLoop_waits fn o.delay o.backoffFactor o.maxRetries
      0 none i h
    rwa [Nat.zero_add] at hx
  · intro j e hj hf hr hall
    exact Ts.withRetryLoop_first_nonretryable fn o.delay o.backoffFactor j
      o.maxRetries 0 none e hj (by rwa [Nat.zero_add]) hr
      (fun i hi => by
        have hx := hall i hi
        rwa [Nat.zero_add])
  · intro e hpos hall hlast
    exact Ts.withRetryLoop_exhausted fn o.delay o.backoffFactor o.maxRetries
      0 none e hpos
      (fun i hi => by
        have hx := hall i hi
        rwa [Nat.zero_add])
      (by rwa [Nat.zero_add])

/-- Witness for C1: a callback that always throws an ApiError with
status 503 exhausts a budget of 2 attempts and the last error is thrown. -/
theorem Ts.C1_witness :
    (Ts.withRetry
        (fun _ => (Except.error (Ts.Thrown.apiErr 503) : Except Ts.Thrown Unit))
        ⟨2, 300, 2⟩).calls = 2 ∧
    (Ts.withRetry
        (fun _ => (Except.error (Ts.Thrown.apiErr 503) : Except Ts.Thrown Unit))
        ⟨2, 300, 2⟩).outcome =
      Except.error (some (Ts.Thrown.apiErr 503)) :=
  (Ts.C1_withRetry
      (fun _ => (Except.error (Ts.Thrown.apiErr 503) : Except Ts.Thrown Unit))
      ⟨2, 300, 2⟩).2.2.2 (Ts.Thrown.apiErr 503) (by norm_num)
    (fun i _ => ⟨Ts.Thrown.apiErr 503, rfl, by decide⟩) rfl
